import Mathlib

/-!
Shallow embedding of the stealth/AI engine of `oneshot-hm2016`
(StealthSystem.js, EnemyAI.js and their callers), together with proofs
of the specification claims about it.

Modelling conventions:
* JS numbers are embedded as `ℚ` (all constants in the engine are
  decimal literals and all the arithmetic the claims mention is
  field arithmetic; no overflow or NaN behaviour is relied on).
* Transcendental geometry (Euclidean `distanceTo`, `acos` of a dot
  product, `sin`/`cos` sway, `atan2` facing, raycast occlusion,
  collision resolution) is abstracted as oracle inputs: the distance,
  the viewing angle, the line-of-sight answer and the post-movement
  position/rotation are parameters of the embedded functions, exactly
  at the places where the source calls out to `THREE` geometry.
  The control flow, the thresholds and every arithmetic combination of
  those quantities are translated literally from the source.
* `Date.now()` timestamps are embedded as `ℤ` milliseconds.
-/

namespace Stealth

/-- Alert states, from the `AlertState` enum of StealthSystem.js. -/
inductive AlertState where
  | IDLE
  | SUSPICIOUS
  | ALERTED
  | COMBAT
deriving DecidableEq, Repr

/-- A 3D vector with rational coordinates (`THREE.Vector3`). -/
structure Vec3 where
  x : ℚ
  y : ℚ
  z : ℚ
deriving DecidableEq, Repr

/-- Per-alert-state base detection rate, the `detectionSpeed` table of
StealthSystem.js (0.5 / 0.8 / 1.2 / 2.0). -/
def detectionSpeed : AlertState → ℚ
  | AlertState.IDLE => 1/2
  | AlertState.SUSPICIOUS => 4/5
  | AlertState.ALERTED => 6/5
  | AlertState.COMBAT => 2

/-- Constant `this.suspiciousThreshold = 0.3` in StealthSystem.js. -/
def suspiciousThreshold : ℚ := 3/10

/-- Constant `this.alertedThreshold = 0.7` in StealthSystem.js. -/
def alertedThreshold : ℚ := 7/10

/-- Constant `this.combatThreshold = 1.0` in StealthSystem.js. -/
def combatThreshold : ℚ := 1

/-- Embedding of `StealthSystem.getStateFromLevel`: classify a continuous alert level
into a discrete alert state by the fixed ascending thresholds. -/
def getStateFromLevel (level : ℚ) : AlertState :=
  if level ≥ combatThreshold then AlertState.COMBAT
  else if level ≥ alertedThreshold then AlertState.ALERTED
  else if level ≥ suspiciousThreshold then AlertState.SUSPICIOUS
  else AlertState.IDLE

/-- Embedding of `StealthSystem.checkDetection(enemy, player, deltaTime)`.

The caller-side geometry is abstracted: `distance` is the eye-level
distance `enemyPos.distanceTo(playerPos)` (after both y coordinates are
forced to eye height), `angle` is `acos(dirToPlayer.dot(enemyForward))`,
and `hasLineOfSight` is the result of the raycast occlusion query
`this.hasLineOfSight(enemyPos, playerPos)`.  `visibilityMultiplier` is
`player.getVisibilityMultiplier()` and `lightingModifier` is
`levelBuilder.getLightingModifier(player.position)`.  Every check and
every arithmetic step below is the source line by line. -/
def checkDetection (alertState : AlertState) (detectionRange detectionAngle : ℚ)
    (playerIsAlive : Bool) (distance angle : ℚ) (hasLineOfSight : Bool)
    (visibilityMultiplier lightingModifier deltaTime : ℚ) : ℚ :=
  if playerIsAlive = false then 0
  else if distance > detectionRange then 0
  else if angle > detectionAngle then 0
  else if hasLineOfSight = false then 0
  else
    detectionSpeed alertState
      * (1 + (1 - distance / detectionRange))
      * (1/2 + (1 - angle / detectionAngle) * (1/2))
      * visibilityMultiplier
      * lightingModifier
      * deltaTime

/-- Sound event categories; the engine only ever registers the gunshot
category (WeaponSystem.js) but the registry stores an arbitrary tag. -/
inductive SoundType where
  | gunshot
  | footstep
deriving DecidableEq, Repr

/-- A registered sound event (an element of `this.soundSources`). -/
structure Sound where
  position : Vec3
  loudness : ℚ
  type : SoundType
  time : ℤ
  radius : ℚ
deriving DecidableEq, Repr

/-- A heard sound as produced by `checkSoundDetection` (position,
effective loudness at the listener, category). -/
structure HeardSound where
  position : Vec3
  loudness : ℚ
  type : SoundType
deriving DecidableEq, Repr

/-- Embedding of `StealthSystem.registerSound(position, loudness, type)`: append the
event with the current timestamp and audibility radius `loudness * 20`,
then prune every event 3000 ms old or older. -/
def registerSound (soundSources : List Sound) (position : Vec3) (loudness : ℚ)
    (type : SoundType) (now : ℤ) : List Sound :=
  (soundSources ++
      [({ position := position, loudness := loudness, type := type,
          time := now, radius := loudness * 20 } : Sound)]).filter
    (fun s => now - s.time < 3000)

/-- First maximum of a nonempty list of heard sounds: the source sorts
descending by loudness with a stable sort and returns element 0, which
is exactly the first element attaining the maximal loudness. -/
def loudestFirst (h : HeardSound) (t : List HeardSound) : HeardSound :=
  t.foldl (fun best s => if s.loudness > best.loudness then s else best) h

/-- Embedding of `StealthSystem.checkSoundDetection(enemy)`: keep the events whose
age is at most 2000 ms (the source skips on `age > 2000`) and whose
distance to the listener is within the event radius (skips on
`distance > radius`), give each the effective loudness
`loudness * (1 - distance/radius)`, and return the loudest (first wins
on ties), or none.  `dist` is the Euclidean-distance oracle standing
for `enemy.position.distanceTo(sound.position)`.  `soundFilter` is the
loop body (the per-event filter and scoring). -/
def soundFilter (dist : Vec3 → Vec3 → ℚ) (listenerPos : Vec3) (now : ℤ)
    (s : Sound) : Option HeardSound :=
  if now - s.time > 2000 then none
  else if dist listenerPos s.position > s.radius then none
  else some { position := s.position,
              loudness := s.loudness * (1 - dist listenerPos s.position / s.radius),
              type := s.type }

def checkSoundDetection (dist : Vec3 → Vec3 → ℚ) (listenerPos : Vec3) (now : ℤ)
    (soundSources : List Sound) : Option HeardSound :=
  match soundSources.filterMap (soundFilter dist listenerPos now) with
  | [] => none
  | h :: t => some (loudestFirst h t)

/-- Never-reassigned EnemyAI constructor constants. -/
def alertDecayRate : ℚ := 3/20

/-- Constant `this.investigateDuration = 5` (seconds) in EnemyAI.js. -/
def investigateDuration : ℚ := 5

/-- Constant `this.patrolWaitDuration = 2` (seconds) in EnemyAI.js. -/
def patrolWaitDuration : ℚ := 2

/-- Constant `this.shootInterval = 0.8` (seconds) in EnemyAI.js. -/
def shootInterval : ℚ := 4/5

/-- Constant `this.shootRange = 20` in EnemyAI.js. -/
def shootRange : ℚ := 20

/-- Constant `this.walkSpeed = 2` in EnemyAI.js. -/
def walkSpeed : ℚ := 2

/-- Constant `this.runSpeed = 5` in EnemyAI.js. -/
def runSpeed : ℚ := 5

/-- The mutable per-agent state of `EnemyAI` that the engine logic reads
and writes.  `detectionRange` is 8 for the high-value target and 12 for
guards; `detectionAngle` is the half-angle `Math.PI / 3` set by the
constructor (kept symbolic because π is irrational; no claim depends on
its value).  Rendering-only state (mesh parts, leg swing) is omitted. -/
structure Agent where
  position : Vec3
  rotation : ℚ
  patrolRoute : List Vec3
  currentPatrolIndex : ℕ
  patrolWaitTime : ℚ
  detectionRange : ℚ
  detectionAngle : ℚ
  alertLevel : ℚ
  alertState : AlertState
  health : ℚ
  maxHealth : ℚ
  isAlive : Bool
  shootCooldown : ℚ
  isTarget : Bool
  lastKnownPlayerPos : Option Vec3
  investigateTime : ℚ
  searchTime : ℚ
  coverTime : ℚ
deriving DecidableEq, Repr

/-- The player state an agent's update reads (PlayerController fields). -/
structure Player where
  position : Vec3
  isAlive : Bool
deriving DecidableEq, Repr

/-- The geometric quantities `StealthSystem.checkDetection` derives from
the scene for one observer/target pair this tick (distance, angle,
occlusion raycast, visibility and lighting multipliers). -/
structure DetInput where
  distance : ℚ
  angle : ℚ
  hasLineOfSight : Bool
  visibilityMultiplier : ℚ
  lightingModifier : ℚ
deriving DecidableEq, Repr

/-- Everything `EnemyAI.update(deltaTime, player, stealthSystem, ...)`
consumes from outside the agent in one tick.  The function-valued
fields are the geometry oracles: `dist` stands for
`Vector3.distanceTo`, `moveTowards` for the combined
facePosition/normalize/collision movement of `EnemyAI.moveTowards`
(given current position, target and speed it yields the new position
and rotation), `faceRotation` for `EnemyAI.facePosition`, and
`strafePosition` for the collision-checked strafe step of combat.  The
sway fields are the `Math.sin(Date.now() * c) * k` look-around
increments at the three look-around call sites. -/
structure TickEnv where
  deltaTime : ℚ
  player : Player
  det : DetInput
  soundSources : List Sound
  now : ℤ
  dist : Vec3 → Vec3 → ℚ
  moveTowards : Vec3 → Vec3 → ℚ → Vec3 × ℚ
  faceRotation : Vec3 → Vec3 → ℚ → ℚ
  strafePosition : Vec3 → ℚ → Vec3
  patrolIdleSway : ℚ
  patrolLookSway : ℚ
  investigateLookSway : ℚ

/-- The detection amount `stealthSystem.checkDetection(this, player,
deltaTime)` computed for this agent this tick. -/
def detectionAmount (env : TickEnv) (a : Agent) : ℚ :=
  checkDetection a.alertState a.detectionRange a.detectionAngle
    env.player.isAlive env.det.distance env.det.angle env.det.hasLineOfSight
    env.det.visibilityMultiplier env.det.lightingModifier env.deltaTime

/-- The alert-decay step at the top of `EnemyAI.update`: if the level is
positive and the state is not COMBAT, subtract `alertDecayRate *
deltaTime` and clamp at 0. -/
def decayPhase (env : TickEnv) (a : Agent) : Agent :=
  if a.alertLevel > 0 ∧ a.alertState ≠ AlertState.COMBAT then
    let l := a.alertLevel - alertDecayRate * env.deltaTime
    { a with alertLevel := if l < 0 then 0 else l }
  else a

/-- The stimulus-intake portion of `EnemyAI.update`: decay, then visual
detection (add the detection amount and refresh the last known player
position when it is positive), then sound (a heard gunshot floors the
level at 0.5 and adopts the sound position only when no last known
position is set), then recompute the discrete state from the level. -/
def stimulusPhase (env : TickEnv) (a : Agent) : Agent :=
  let a1 := decayPhase env a
  let a2 :=
    if detectionAmount env a1 > 0 then
      { a1 with alertLevel := a1.alertLevel + detectionAmount env a1,
                lastKnownPlayerPos := some env.player.position }
    else a1
  let a3 :=
    match checkSoundDetection env.dist a2.position env.now env.soundSources with
    | some s =>
        if s.type = SoundType.gunshot then
          { a2 with alertLevel := max a2.alertLevel (1/2),
                    lastKnownPlayerPos :=
                      match a2.lastKnownPlayerPos with
                      | none => some s.position
                      | some p => some p }
        else a2
    | none => a2
  { a3 with alertState := getStateFromLevel a3.alertLevel }

/-- Embedding of `EnemyAI.patrol`: idle sway with no route; count down the waypoint
dwell timer while swaying; otherwise head for the current waypoint,
advancing the cyclic index and starting a new wait on arrival
(distance below 0.5). -/
def patrol (env : TickEnv) (a : Agent) : Agent :=
  if a.patrolRoute.isEmpty then
    { a with rotation := a.rotation + env.patrolIdleSway }
  else if a.patrolWaitTime > 0 then
    { a with patrolWaitTime := a.patrolWaitTime - env.deltaTime,
             rotation := a.rotation + env.patrolLookSway }
  else
    match a.patrolRoute.get? a.currentPatrolIndex with
    | none => a
    | some target =>
        if env.dist a.position target < 1/2 then
          { a with currentPatrolIndex := (a.currentPatrolIndex + 1) % a.patrolRoute.length,
                   patrolWaitTime := patrolWaitDuration }
        else
          let m := env.moveTowards a.position target walkSpeed
          { a with position := m.1, rotation := m.2 }

/-- Embedding of `EnemyAI.investigate`: fall back to patrol without a last known
position; otherwise accumulate the investigate timer, head for the last
known position (look around within 1 unit), and once the timer exceeds
the 5 second duration give up — reset the timer, clear the last known
position and force the level to 0. -/
def investigate (env : TickEnv) (a : Agent) : Agent :=
  match a.lastKnownPlayerPos with
  | none => patrol env a
  | some lkp =>
      let a1 := { a with investigateTime := a.investigateTime + env.deltaTime }
      let a2 :=
        if env.dist a1.position lkp > 1 then
          let m := env.moveTowards a1.position lkp (walkSpeed * (3/2))
          { a1 with position := m.1, rotation := m.2 }
        else
          { a1 with rotation := a1.rotation + env.investigateLookSway }
      if a2.investigateTime > investigateDuration then
        { a2 with investigateTime := 0, lastKnownPlayerPos := none, alertLevel := 0 }
      else a2

/-- Embedding of `EnemyAI.search`: accumulate the search timer, head for the last
known position when set (scan in place within 1 unit), and once past
10 seconds reset the timer and subtract 0.3 from the level. -/
def search (env : TickEnv) (a : Agent) : Agent :=
  let a1 := { a with searchTime := a.searchTime + env.deltaTime }
  let a2 :=
    match a1.lastKnownPlayerPos with
    | some lkp =>
        if env.dist a1.position lkp > 1 then
          let m := env.moveTowards a1.position lkp (runSpeed * (4/5))
          { a1 with position := m.1, rotation := m.2 }
        else
          { a1 with rotation := a1.rotation + env.deltaTime * 2 }
    | none => a1
  if a2.searchTime > 10 then
    { a2 with searchTime := 0, alertLevel := a2.alertLevel - 3/10 }
  else a2

/-- Embedding of `EnemyAI.shoot` as it affects the agent itself: arm the cooldown.
(The gunshot sound, hit roll and player damage act on collaborators.) -/
def shoot (a : Agent) : Agent :=
  { a with shootCooldown := shootInterval }

/-- Embedding of `EnemyAI.combat`: with a dead player set the level to 0.5; otherwise
refresh the last known position to the player's current position, face
the player, and either close distance (beyond shoot range), take
cover/strafe and shoot (below 8 units), or shoot at medium range.  The
high-value target never shoots. -/
def combat (env : TickEnv) (a : Agent) : Agent :=
  if env.player.isAlive = false then
    { a with alertLevel := 1/2 }
  else
    let a1 := { a with lastKnownPlayerPos := some env.player.position }
    let d := env.dist a1.position env.player.position
    let a2 := { a1 with rotation := env.faceRotation a1.position env.player.position a1.rotation }
    if d > shootRange then
      let m := env.moveTowards a2.position env.player.position runSpeed
      { a2 with position := m.1, rotation := m.2 }
    else if d < 8 then
      let a3 := { a2 with coverTime := a2.coverTime + env.deltaTime }
      let a4 : Agent :=
        if a3.coverTime > 2 then
          let a3s := { a3 with position := env.strafePosition a3.position a3.rotation }
          if a3s.coverTime > 4 then { a3s with coverTime := 0 } else a3s
        else a3
      if a4.shootCooldown ≤ 0 ∧ a4.isTarget = false then shoot a4 else a4
    else
      if a2.shootCooldown ≤ 0 ∧ a2.isTarget = false then shoot a2 else a2

/-- The behavior dispatch of `EnemyAI.update`: run the mode selected by
the (just recomputed) discrete alert state. -/
def behaviorPhase (env : TickEnv) (a : Agent) : Agent :=
  match a.alertState with
  | AlertState.IDLE => patrol env a
  | AlertState.SUSPICIOUS => investigate env a
  | AlertState.ALERTED => search env a
  | AlertState.COMBAT => combat env a

/-- Embedding of `EnemyAI.update(deltaTime, player, stealthSystem, audioManager,
colliders)`: return immediately for a dead agent; otherwise stimulus
intake, behavior dispatch, then the shoot-cooldown countdown. -/
def update (env : TickEnv) (a : Agent) : Agent :=
  if a.isAlive = false then a
  else
    let b := behaviorPhase env (stimulusPhase env a)
    if b.shootCooldown > 0 then
      { b with shootCooldown := b.shootCooldown - env.deltaTime }
    else b

/-- Embedding of `EnemyAI.takeDamage(amount, isHeadshot)`: no-op returning false on a
dead agent; double the amount on a headshot; subtract from health; on
health at most 0 die (`die()` sets alive to false) and report the kill,
otherwise force maximum alertness and report no kill. -/
def takeDamage (a : Agent) (amount : ℚ) (isHeadshot : Bool) : Agent × Bool :=
  if a.isAlive = false then (a, false)
  else
    let amt := if isHeadshot then amount * 2 else amount
    let a1 := { a with health := a.health - amt }
    if a1.health ≤ 0 then
      ({ a1 with isAlive := false }, true)
    else
      ({ a1 with alertLevel := 1, alertState := AlertState.COMBAT }, false)

/-- The loop body of `StealthSystem.updateGlobalAlert`: keep the state
and level of the agent whose alert level strictly exceeds the best so
far. -/
def globalAlertStep (acc : AlertState × ℚ) (enemy : Agent) : AlertState × ℚ :=
  if enemy.alertLevel > acc.2 then (enemy.alertState, enemy.alertLevel) else acc

/-- Embedding of `StealthSystem.updateGlobalAlert(enemies)`: scan the given agents
(the caller in main.js passes the full enemy array, dead agents
included, and the loop performs no aliveness check), seeded with
`(IDLE, 0)`. -/
def updateGlobalAlert (enemies : List Agent) : AlertState × ℚ :=
  enemies.foldl globalAlertStep (AlertState.IDLE, 0)

/-! Concrete fixtures used by witnesses and counterexamples. -/

/-- The world origin. -/
def origin : Vec3 := ⟨0, 0, 0⟩

/-- A freshly constructed guard (the EnemyAI constructor defaults, with
the π/3 half-angle oracle instantiated at 1). -/
def baseAgent : Agent :=
  { position := origin, rotation := 0, patrolRoute := [], currentPatrolIndex := 0,
    patrolWaitTime := 0, detectionRange := 12, detectionAngle := 1,
    alertLevel := 0, alertState := AlertState.IDLE, health := 100, maxHealth := 100,
    isAlive := true, shootCooldown := 0, isTarget := false,
    lastKnownPlayerPos := none, investigateTime := 0, searchTime := 0, coverTime := 0 }

/-- Detection input with the sightline blocked (and out of range). -/
def blockedSight : DetInput :=
  { distance := 20, angle := 0, hasLineOfSight := false,
    visibilityMultiplier := 1, lightingModifier := 1 }

/-- A concrete one-second tick environment with trivial geometry
oracles and no stimuli. -/
def baseEnv : TickEnv :=
  { deltaTime := 1, player := ⟨⟨5, 0, 5⟩, true⟩, det := blockedSight,
    soundSources := [], now := 0,
    dist := fun _ _ => 0, moveTowards := fun p _ _ => (p, 0),
    faceRotation := fun _ _ r => r, strafePosition := fun p _ => p,
    patrolIdleSway := 0, patrolLookSway := 0, investigateLookSway := 0 }

/-- A suspicious guard five seconds into an investigation. -/
def investigatingGuard : Agent :=
  { baseAgent with alertLevel := 1/2, alertState := AlertState.SUSPICIOUS,
                   lastKnownPlayerPos := some origin, investigateTime := 5 }

/-- Each per-state base detection rate is positive. -/
lemma detectionSpeed_pos (st : AlertState) : 0 < detectionSpeed st := by
  cases st <;> norm_num [detectionSpeed]

/-- Claim C1: `checkDetection` returns 0 whenever a gating check fails —
dead target, distance beyond `detectionRange`, angle beyond the
detection half-angle, or a blocked sightline (so a blocking wall means
exactly 0 accumulation regardless of distance and angle) — and when
every check passes it returns
`baseRate * (1 + (1 - distance/range)) * (0.5 + 0.5*(1 - angle/halfAngle))
  * visibility * lighting * deltaTime`,
with the base rates strictly increasing IDLE < SUSPICIOUS < ALERTED <
COMBAT. -/
theorem checkDetection_gating_and_formula (st : AlertState) (range halfAngle : ℚ)
    (alive : Bool) (d ang : ℚ) (los : Bool) (vis light dt : ℚ) :
    (alive = false → checkDetection st range halfAngle alive d ang los vis light dt = 0) ∧
    (range < d → checkDetection st range halfAngle alive d ang los vis light dt = 0) ∧
    (halfAngle < ang → checkDetection st range halfAngle alive d ang los vis light dt = 0) ∧
    (los = false → checkDetection st range halfAngle alive d ang los vis light dt = 0) ∧
    (alive = true → d ≤ range → ang ≤ halfAngle → los = true →
      checkDetection st range halfAngle alive d ang los vis light dt =
        detectionSpeed st * (1 + (1 - d / range)) * (1/2 + (1 - ang / halfAngle) * (1/2))
          * vis * light * dt) ∧
    (detectionSpeed AlertState.IDLE < detectionSpeed AlertState.SUSPICIOUS ∧
      detectionSpeed AlertState.SUSPICIOUS < detectionSpeed AlertState.ALERTED ∧
      detectionSpeed AlertState.ALERTED < detectionSpeed AlertState.COMBAT) := by
  refine ⟨?_, ?_, ?_, ?_, ?_, by norm_num [detectionSpeed]⟩
  · intro h; simp [checkDetection, h]
  · intro h
    unfold checkDetection
    split_ifs with h1 h2 h3 h4 <;> first | rfl | exact absurd h (by exact h2)
  · intro h
    unfold checkDetection
    split_ifs with h1 h2 h3 h4 <;> first | rfl | exact absurd h (by exact h3)
  · intro h
    unfold checkDetection
    split_ifs with h1 h2 h3 h4 <;> first | rfl | exact absurd h4 (by simp [h])
  · intro h1 h2 h3 h4
    simp [checkDetection, h1, h4, not_lt.2 h2, not_lt.2 h3]

/-- Witness for C1 at a concrete passing input: an IDLE observer with
range 15 and half-angle 1 seeing an unoccluded target dead ahead at
distance 5 with neutral modifiers accumulates 5/6 per second. -/
theorem checkDetection_gating_and_formula_witness :
    checkDetection AlertState.IDLE 15 1 true 5 0 true 1 1 1 = 5/6 := by
  have h := (checkDetection_gating_and_formula AlertState.IDLE 15 1 true 5 0
    true 1 1 1).2.2.2.2.1 rfl (by norm_num) (by norm_num) rfl
  rw [h]; norm_num [detectionSpeed]

/-- Counterexample to claim C4: at distance exactly equal to
`detectionRange` the range gate (a strict comparison) still passes and
the distance factor is 1, so the rate is 1/2, not 0 — the rate is 0
only strictly beyond the range. -/
theorem checkDetection_at_range_counterexample :
    checkDetection AlertState.IDLE 12 1 true 12 0 true 1 1 1 = 1/2 ∧
    ((1 : ℚ)/2 ≠ 0) := by
  constructor
  · norm_num [checkDetection, detectionSpeed]
  · norm_num

/-- Claim C4 (amended): holding the alert state, angle, occlusion
result, visibility/lighting modifiers and deltaTime fixed (gates
passing, modifiers positive), `checkDetection` strictly decreases as
the distance increases up to and including `detectionRange`, and equals
0 strictly beyond `detectionRange`. -/
theorem checkDetection_distance_monotone (st : AlertState)
    (range halfAngle ang vis light dt d1 d2 : ℚ)
    (hrange : 0 < range) (hha : 0 < halfAngle) (hang : ang ≤ halfAngle)
    (hvis : 0 < vis) (hlight : 0 < light) (hdt : 0 < dt) :
    (d1 < d2 → d2 ≤ range →
      checkDetection st range halfAngle true d2 ang true vis light dt <
        checkDetection st range halfAngle true d1 ang true vis light dt) ∧
    (range < d2 → checkDetection st range halfAngle true d2 ang true vis light dt = 0) := by
  constructor
  · intro h12 h2r
    have h1r : d1 ≤ range := le_of_lt (lt_of_lt_of_le h12 h2r)
    rw [(checkDetection_gating_and_formula st range halfAngle true d1 ang true
          vis light dt).2.2.2.2.1 rfl h1r hang rfl,
        (checkDetection_gating_and_formula st range halfAngle true d2 ang true
          vis light dt).2.2.2.2.1 rfl h2r hang rfl]
    have hsp := detectionSpeed_pos st
    have hdd : d1 / range < d2 / range := by
      apply div_lt_div_of_pos_right h12 hrange
    have hamf : 0 < 1/2 + (1 - ang / halfAngle) * (1/2) := by
      have : ang / halfAngle ≤ 1 := (div_le_one hha).2 hang
      linarith
    have hF : detectionSpeed st * (1 + (1 - d2 / range)) <
        detectionSpeed st * (1 + (1 - d1 / range)) := by
      apply mul_lt_mul_of_pos_left (by linarith) hsp
    exact mul_lt_mul_of_pos_right (mul_lt_mul_of_pos_right (mul_lt_mul_of_pos_right
      (mul_lt_mul_of_pos_right hF hamf) hvis) hlight) hdt
  · intro h
    exact (checkDetection_gating_and_formula st range halfAngle true d2 ang true
      vis light dt).2.1 h

/-- Witness for C4 (amended) at concrete inputs: for an IDLE observer
with range 12, moving the target from distance 5 to distance 6 strictly
lowers the rate, and at distance 13 the rate is 0. -/
theorem checkDetection_distance_monotone_witness :
    checkDetection AlertState.IDLE 12 1 true 6 0 true 1 1 1 <
      checkDetection AlertState.IDLE 12 1 true 5 0 true 1 1 1 ∧
    checkDetection AlertState.IDLE 12 1 true 13 0 true 1 1 1 = 0 := by
  constructor
  · exact (checkDetection_distance_monotone AlertState.IDLE 12 1 0 1 1 1 5 6
      (by norm_num) (by norm_num) (by norm_num) (by norm_num) (by norm_num)
      (by norm_num)).1 (by norm_num) (by norm_num)
  · exact (checkDetection_distance_monotone AlertState.IDLE 12 1 0 1 1 1 5 13
      (by norm_num) (by norm_num) (by norm_num) (by norm_num) (by norm_num)
      (by norm_num)).2 (by norm_num)

/-- The first maximum picked by `loudestFirst` is an element of the
nonempty list it scans. -/
lemma loudestFirst_mem (h : HeardSound) (t : List HeardSound) :
    loudestFirst h t ∈ h :: t := by
  induction t generalizing h with
  | nil => simp [loudestFirst]
  | cons c t ih =>
      have step : loudestFirst h (c :: t) =
          loudestFirst (if c.loudness > h.loudness then c else h) t := rfl
      rw [step]
      rcases List.mem_cons.1 (ih (if c.loudness > h.loudness then c else h)) with hm | hm
      · rw [hm]
        split_ifs <;> simp
      · simp [hm]

/-- The first maximum picked by `loudestFirst` is at least as loud as
every element of the list it scans. -/
lemma loudestFirst_ge (h : HeardSound) (t : List HeardSound) :
    ∀ x ∈ h :: t, x.loudness ≤ (loudestFirst h t).loudness := by
  induction t generalizing h with
  | nil => simp [loudestFirst]
  | cons c t ih =>
      intro x hx
      have step : loudestFirst h (c :: t) =
          loudestFirst (if c.loudness > h.loudness then c else h) t := rfl
      rw [step]
      have hbest : h.loudness ≤ (if c.loudness > h.loudness then c else h).loudness ∧
          c.loudness ≤ (if c.loudness > h.loudness then c else h).loudness := by
        split_ifs with hc
        · exact ⟨le_of_lt hc, le_refl _⟩
        · exact ⟨le_refl _, not_lt.1 hc⟩
      have hhead := ih (if c.loudness > h.loudness then c else h)
        (if c.loudness > h.loudness then c else h) (by simp)
      rcases List.mem_cons.1 hx with hx1 | hx2
      · rw [hx1]; exact le_trans hbest.1 hhead
      · rcases List.mem_cons.1 hx2 with hx3 | hx4
        · rw [hx3]; exact le_trans hbest.2 hhead
        · exact ih (if c.loudness > h.loudness then c else h) x (by simp [hx4])

/-- Counterexample to the expiry part of claim C5: a loudness-1.0
gunshot registered at time 0 is still returned by a query made at
exactly t = 2000 ms (age 2000 is not older than the threshold, since
the source skips only on `age > 2000`), here by a listener 15 units
away with audibility radius 20, with effective loudness 1/4. -/
theorem checkSoundDetection_at_2000_counterexample :
    checkSoundDetection (fun _ _ => 15) ⟨15, 0, 0⟩ 2000
        (registerSound [] origin 1 SoundType.gunshot 0) =
      some ⟨origin, 1/4, SoundType.gunshot⟩ := by
  norm_num [checkSoundDetection, soundFilter, registerSound, loudestFirst, origin,
    List.filterMap]

/-- Claim C5 (amended): `checkSoundDetection` returns none exactly when
no registered event has age at most 2000 ms and distance within its
audibility radius; and any returned sound comes from a qualifying event
(age at most 2000 ms, distance within radius), carries that event's
position and category and the effective loudness
`loudness * (1 - distance/radius)`, and its effective loudness is
maximal among all qualifying events. -/
theorem checkSoundDetection_characterization (dist : Vec3 → Vec3 → ℚ)
    (listenerPos : Vec3) (now : ℤ) (sources : List Sound) :
    (checkSoundDetection dist listenerPos now sources = none ↔
      ∀ s ∈ sources, ¬(now - s.time ≤ 2000 ∧ dist listenerPos s.position ≤ s.radius)) ∧
    (∀ h, checkSoundDetection dist listenerPos now sources = some h →
      ∃ s ∈ sources,
        now - s.time ≤ 2000 ∧
        dist listenerPos s.position ≤ s.radius ∧
        h.position = s.position ∧ h.type = s.type ∧
        h.loudness = s.loudness * (1 - dist listenerPos s.position / s.radius) ∧
        ∀ t ∈ sources, now - t.time ≤ 2000 → dist listenerPos t.position ≤ t.radius →
          t.loudness * (1 - dist listenerPos t.position / t.radius) ≤ h.loudness) := by
  constructor
  · unfold checkSoundDetection
    rcases hf : sources.filterMap (soundFilter dist listenerPos now) with _ | ⟨x, ts⟩
    · simp only [true_iff]
      intro s hs hq
      have := List.filterMap_eq_nil_iff.1 hf s hs
      rw [soundFilter, if_neg (by omega), if_neg (by exact not_lt.2 hq.2)] at this
      exact Option.noConfusion this
    · constructor
      · intro hc; exact Option.noConfusion hc
      · intro hall
        have hnil : sources.filterMap (soundFilter dist listenerPos now) = [] :=
          List.filterMap_eq_nil_iff.2 (by
            intro s hs
            have hns := hall s hs
            unfold soundFilter
            by_cases h1 : now - s.time > 2000
            · rw [if_pos h1]
            · by_cases h2 : dist listenerPos s.position > s.radius
              · rw [if_neg h1, if_pos h2]
              · exact absurd ⟨by omega, not_lt.1 h2⟩ hns)
        rw [hf] at hnil
        exact List.noConfusion hnil
  · intro h hq
    unfold checkSoundDetection at hq
    rcases hf : sources.filterMap (soundFilter dist listenerPos now) with _ | ⟨x, ts⟩
    · rw [hf] at hq; exact Option.noConfusion hq
    · rw [hf] at hq
      have hh : loudestFirst x ts = h := Option.some.inj hq
      have hmem : h ∈ x :: ts := hh ▸ loudestFirst_mem x ts
      rw [← hf] at hmem
      rcases List.mem_filterMap.1 hmem with ⟨s, hs, hfs⟩
      rw [soundFilter] at hfs
      by_cases h1 : now - s.time > 2000
      · rw [if_pos h1] at hfs; exact Option.noConfusion hfs
      by_cases h2 : dist listenerPos s.position > s.radius
      · rw [if_neg h1, if_pos h2] at hfs; exact Option.noConfusion hfs
      rw [if_neg h1, if_neg h2] at hfs
      have hfields := Option.some.inj hfs
      refine ⟨s, hs, by omega, not_lt.1 h2, ?_, ?_, ?_, ?_⟩
      · rw [← hfields]
      · rw [← hfields]
      · rw [← hfields]
      · intro t ht ht1 ht2
        have hft : (⟨t.position, t.loudness * (1 - dist listenerPos t.position / t.radius),
            t.type⟩ : HeardSound) ∈ sources.filterMap (soundFilter dist listenerPos now) := by
          apply List.mem_filterMap.2
          exact ⟨t, ht, by rw [soundFilter, if_neg (by omega), if_neg (not_lt.2 ht2)]⟩
        rw [hf] at hft
        have := loudestFirst_ge x ts _ hft
        rw [hh] at this
        exact this

/-- Witness for C5 (amended): applying the characterization to the
single-gunshot registry and a query at t = 1000 produces the qualifying
event, the effective loudness 1/4 and its maximality. -/
theorem checkSoundDetection_characterization_witness :
    ∃ s ∈ registerSound [] origin 1 SoundType.gunshot 0,
      (1000 : ℤ) - s.time ≤ 2000 ∧
      (fun (_ : Vec3) (_ : Vec3) => (15 : ℚ)) (⟨15, 0, 0⟩ : Vec3) s.position ≤ s.radius ∧
      (⟨origin, 1/4, SoundType.gunshot⟩ : HeardSound).position = s.position ∧
      (⟨origin, 1/4, SoundType.gunshot⟩ : HeardSound).type = s.type ∧
      (⟨origin, 1/4, SoundType.gunshot⟩ : HeardSound).loudness =
        s.loudness * (1 - (fun (_ : Vec3) (_ : Vec3) => (15 : ℚ)) ⟨15, 0, 0⟩ s.position / s.radius) ∧
      ∀ t ∈ registerSound [] origin 1 SoundType.gunshot 0,
        (1000 : ℤ) - t.time ≤ 2000 →
        (fun (_ : Vec3) (_ : Vec3) => (15 : ℚ)) (⟨15, 0, 0⟩ : Vec3) t.position ≤ t.radius →
        t.loudness * (1 - (fun (_ : Vec3) (_ : Vec3) => (15 : ℚ)) ⟨15, 0, 0⟩ t.position / t.radius) ≤
          (⟨origin, 1/4, SoundType.gunshot⟩ : HeardSound).loudness :=
  (checkSoundDetection_characterization (fun _ _ => 15) ⟨15, 0, 0⟩ 1000
      (registerSound [] origin 1 SoundType.gunshot 0)).2
    ⟨origin, 1/4, SoundType.gunshot⟩
    (by norm_num [checkSoundDetection, soundFilter, registerSound, loudestFirst, origin,
      List.filterMap])

/-- A dead agent that retains a maximal alert level: `die()` only flips
the alive flag and never resets `alertLevel` or `alertState`. -/
def deadCombatant : Agent :=
  { baseAgent with isAlive := false, alertLevel := 1, alertState := AlertState.COMBAT }

/-- A living guard with a small positive alert level. -/
def calmGuard : Agent := { baseAgent with alertLevel := 1/5 }

/-- Counterexample to claim C3: the aggregation has no aliveness check,
so a dead agent with the highest level determines the returned global
state and level — here a dead COMBAT agent at level 1 wins over the
only living agent (IDLE at 1/5), while the live-agents-only reduction
the claim describes would return (IDLE, 1/5). -/
theorem updateGlobalAlert_dead_influences_counterexample :
    updateGlobalAlert [deadCombatant, calmGuard] = (AlertState.COMBAT, 1) ∧
    deadCombatant.isAlive = false ∧
    updateGlobalAlert [calmGuard] = (AlertState.IDLE, 1/5) := by
  refine ⟨?_, rfl, ?_⟩ <;>
    norm_num [updateGlobalAlert, globalAlertStep, deadCombatant, calmGuard, baseAgent]

/-- Claim C3 (amended): `updateGlobalAlert` is a pure reduction over ALL
the agents it is handed, dead or alive — the alive flag is ignored, so
dead agents (whose alert fields are never reset by death) still
influence the result.  Seeded with `(IDLE, 0)`, each agent replaces the
running result exactly when its level strictly exceeds the running
level, so the agent with the highest alert level wins and ties are
broken by iteration order (first encountered wins). -/
theorem updateGlobalAlert_spec (agents : List Agent) (a : Agent) :
    updateGlobalAlert (agents ++ [a]) =
      (if a.alertLevel > (updateGlobalAlert agents).2
        then (a.alertState, a.alertLevel) else updateGlobalAlert agents) ∧
    updateGlobalAlert (agents.map fun x => { x with isAlive := false }) =
      updateGlobalAlert agents ∧
    updateGlobalAlert ([] : List Agent) = (AlertState.IDLE, 0) := by
  refine ⟨?_, ?_, rfl⟩
  · unfold updateGlobalAlert
    rw [List.foldl_append]
    rfl
  · unfold updateGlobalAlert
    generalize (AlertState.IDLE, (0 : ℚ)) = init
    induction agents generalizing init with
    | nil => rfl
    | cons x xs ih =>
        simp only [List.map_cons, List.foldl_cons]
        rw [show globalAlertStep init { x with isAlive := false } = globalAlertStep init x
          from rfl]
        exact ih (globalAlertStep init x)

/-- A fresh high-value target: 50 health, smaller detection range. -/
def vipTarget : Agent :=
  { baseAgent with health := 50, maxHealth := 50, detectionRange := 8, isTarget := true }

/-- Counterexample to claim C6: a lethal hit (headshot 40 doubled to 80
against health 50) kills and reports the kill, but does NOT force the
alert level to 1.0 and the state to Combat — the source returns from
the death branch before the alert assignment, so the dead agent keeps
its previous alert fields (here IDLE at level 0). -/
theorem takeDamage_lethal_no_alert_counterexample :
    (takeDamage vipTarget 40 true).2 = true ∧
    (takeDamage vipTarget 40 true).1.isAlive = false ∧
    (takeDamage vipTarget 40 true).1.alertLevel = 0 ∧
    (takeDamage vipTarget 40 true).1.alertLevel ≠ 1 ∧
    (takeDamage vipTarget 40 true).1.alertState = AlertState.IDLE := by
  norm_num [takeDamage, vipTarget, baseAgent]

/-- Claim C6 (amended): `takeDamage` on a dead agent is a no-op that
reports no kill; on a living agent it doubles the amount on a headshot
and subtracts it from health; if that leaves health at most 0 the agent
transitions to alive = false (exactly once, since later calls hit the
no-op branch) and the call reports the kill without touching the alert
fields; otherwise the agent survives with alert level forced to 1.0 and
state Combat, and no kill is reported. -/
theorem takeDamage_spec (a : Agent) (amount : ℚ) (hs : Bool) :
    (a.isAlive = false → takeDamage a amount hs = (a, false)) ∧
    (a.isAlive = true →
      (a.health - (if hs then amount * 2 else amount) ≤ 0 →
        takeDamage a amount hs =
          ({ a with health := a.health - (if hs then amount * 2 else amount),
                    isAlive := false }, true)) ∧
      (0 < a.health - (if hs then amount * 2 else amount) →
        takeDamage a amount hs =
          ({ a with health := a.health - (if hs then amount * 2 else amount),
                    alertLevel := 1, alertState := AlertState.COMBAT }, false))) := by
  refine ⟨?_, ?_⟩
  · intro h; simp [takeDamage, h]
  · intro h
    constructor
    · intro hl
      simp only [takeDamage, h]
      rw [if_neg (by simp), if_pos (by exact hl)]
    · intro hl
      simp only [takeDamage, h]
      rw [if_neg (by simp), if_neg (by exact not_le.2 hl)]

/-- Witness for C6 (amended) at Scenario D's numbers: headshot 40
doubled to 80 against health 50 kills, flips alive to false and leaves
the alert fields alone. -/
theorem takeDamage_spec_witness :
    takeDamage vipTarget 40 true =
      ({ vipTarget with health := -30, isAlive := false }, true) := by
  have h := ((takeDamage_spec vipTarget 40 true).2 rfl).1
    (by norm_num [vipTarget, baseAgent])
  rw [h]
  norm_num [vipTarget, baseAgent]

/-- Claim C9: the per-tick update of a dead agent returns immediately
(the `if (!this.isAlive) return` guard), leaving every field of the
agent unchanged for all environments — deltaTime, player state, sound
registry, geometry oracles alike. -/
theorem update_dead_noop (env : TickEnv) (a : Agent) (h : a.isAlive = false) :
    update env a = a := by
  simp [update, h]

/-- Witness for C9: a concrete dead agent is untouched by a concrete
tick. -/
theorem update_dead_noop_witness : update baseEnv deadCombatant = deadCombatant :=
  update_dead_noop baseEnv deadCombatant rfl

/-! Field-preservation facts about the behavior modes. -/

/-- Patrol never touches the alert fields or the last known position. -/
lemma patrol_keeps (env : TickEnv) (a : Agent) :
    (patrol env a).alertState = a.alertState ∧
    (patrol env a).alertLevel = a.alertLevel ∧
    (patrol env a).lastKnownPlayerPos = a.lastKnownPlayerPos := by
  unfold patrol
  repeat' split
  all_goals exact ⟨rfl, rfl, rfl⟩

/-- Investigate never touches the discrete alert state. -/
lemma investigate_keeps_state (env : TickEnv) (a : Agent) :
    (investigate env a).alertState = a.alertState := by
  rcases h : a.lastKnownPlayerPos with _ | p
  · simp only [investigate, h]
    exact (patrol_keeps env a).1
  · simp only [investigate, h]
    repeat' split
    all_goals rfl

/-- Investigate either leaves the level alone or hard-resets it to 0. -/
lemma investigate_level (env : TickEnv) (a : Agent) :
    (investigate env a).alertLevel = a.alertLevel ∨ (investigate env a).alertLevel = 0 := by
  rcases h : a.lastKnownPlayerPos with _ | p
  · simp only [investigate, h]
    exact Or.inl (patrol_keeps env a).2.1
  · simp only [investigate, h]
    repeat' split
    all_goals first | exact Or.inl rfl | exact Or.inr rfl

/-- The give-up branch of investigate: with a last known position set
and the accumulated timer past the duration, the level is reset to 0,
the position is cleared and the timer is reset. -/
lemma investigate_giveup (env : TickEnv) (a : Agent) (p : Vec3)
    (hl : a.lastKnownPlayerPos = some p)
    (ht : investigateDuration < a.investigateTime + env.deltaTime) :
    (investigate env a).alertLevel = 0 ∧ (investigate env a).lastKnownPlayerPos = none ∧
    (investigate env a).investigateTime = 0 := by
  by_cases hdist : env.dist a.position p > 1 <;>
    simp only [investigate, hl] <;>
    [rw [if_pos hdist]; rw [if_neg hdist]] <;>
    (try dsimp only) <;> rw [if_pos ht] <;> exact ⟨rfl, rfl, rfl⟩

/-- Without a give-up, investigate keeps the last known position. -/
lemma investigate_keeps_lkp (env : TickEnv) (a : Agent) (p : Vec3)
    (hl : a.lastKnownPlayerPos = some p)
    (ht : ¬investigateDuration < a.investigateTime + env.deltaTime) :
    (investigate env a).lastKnownPlayerPos = some p := by
  by_cases hdist : env.dist a.position p > 1 <;>
    simp only [investigate, hl] <;>
    [rw [if_pos hdist]; rw [if_neg hdist]] <;>
    (try dsimp only) <;> rw [if_neg ht] <;> rfl

/-- Search never touches the discrete state or the last known position. -/
lemma search_keeps (env : TickEnv) (a : Agent) :
    (search env a).alertState = a.alertState ∧
    (search env a).lastKnownPlayerPos = a.lastKnownPlayerPos := by
  unfold search
  dsimp only
  repeat' split
  all_goals exact ⟨rfl, rfl⟩

/-- Search either leaves the level alone or subtracts exactly 0.3. -/
lemma search_level (env : TickEnv) (a : Agent) :
    (search env a).alertLevel = a.alertLevel ∨
    (search env a).alertLevel = a.alertLevel - 3/10 := by
  unfold search
  dsimp only
  repeat' split
  all_goals first | exact Or.inl rfl | exact Or.inr rfl

/-- Combat never touches the discrete state. -/
lemma combat_keeps_state (env : TickEnv) (a : Agent) :
    (combat env a).alertState = a.alertState := by
  unfold combat shoot
  dsimp only
  repeat' split
  all_goals rfl

/-- Combat either sets the level to 0.5 (dead player) or leaves it. -/
lemma combat_level (env : TickEnv) (a : Agent) :
    (combat env a).alertLevel = 1/2 ∨ (combat env a).alertLevel = a.alertLevel := by
  unfold combat shoot
  dsimp only
  repeat' split
  all_goals first | exact Or.inl rfl | exact Or.inr rfl

/-- With a living player, combat pins the last known position to the
player's current position. -/
lemma combat_lkp (env : TickEnv) (a : Agent) (h : env.player.isAlive = true) :
    (combat env a).lastKnownPlayerPos = some env.player.position := by
  unfold combat shoot
  rw [if_neg (by simp [h])]
  dsimp only
  repeat' split
  all_goals rfl

/-- The decay step clamps at 0 and never makes a nonnegative level
negative. -/
lemma decayPhase_level_nonneg (env : TickEnv) (a : Agent) (h : 0 ≤ a.alertLevel) :
    0 ≤ (decayPhase env a).alertLevel := by
  unfold decayPhase
  dsimp only
  split_ifs with h1 h2
  · norm_num
  · exact not_lt.1 h2
  · exact h

/-- The decay step only changes the alert level, so the detection
amount (which never reads the level) is unchanged. -/
lemma detectionAmount_decayPhase (env : TickEnv) (a : Agent) :
    detectionAmount env (decayPhase env a) = detectionAmount env a := by
  unfold decayPhase
  split <;> rfl

/-- After the stimulus phase, the discrete state is the threshold
function of the (same phase's) continuous level — the source recomputes
it as the last step of intake. -/
lemma stimulusPhase_alertState (env : TickEnv) (a : Agent) :
    (stimulusPhase env a).alertState = getStateFromLevel (stimulusPhase env a).alertLevel :=
  rfl

/-- The stimulus phase cannot make a nonnegative level negative: decay
clamps, the visual term is only added when positive, and a gunshot
floors the level at 0.5. -/
lemma stimulusPhase_level_nonneg (env : TickEnv) (a : Agent) (h : 0 ≤ a.alertLevel) :
    0 ≤ (stimulusPhase env a).alertLevel := by
  have h1 : 0 ≤ (decayPhase env a).alertLevel := decayPhase_level_nonneg env a h
  unfold stimulusPhase
  dsimp only
  split_ifs with hd
  · split
    · split_ifs with hg
      · dsimp only
        exact le_trans (by norm_num) (le_max_right _ _)
      · dsimp only
        linarith
    · dsimp only
      linarith
  · split
    · split_ifs with hg
      · dsimp only
        exact le_trans (by norm_num) (le_max_right _ _)
      · exact h1
    · exact h1

/-- When the visual detection amount is positive, the stimulus phase
pins the last known position to the player's current position (the
sound branch cannot clear it). -/
lemma stimulusPhase_lkp_detect (env : TickEnv) (a : Agent)
    (hd : 0 < detectionAmount env a) :
    (stimulusPhase env a).lastKnownPlayerPos = some env.player.position := by
  unfold stimulusPhase
  dsimp only
  rw [detectionAmount_decayPhase, if_pos hd]
  split
  · split_ifs with hg
    · rfl
    · rfl
  · rfl

/-- The behavior dispatch never writes the discrete alert state. -/
lemma behaviorPhase_keeps_state (env : TickEnv) (a : Agent) :
    (behaviorPhase env a).alertState = a.alertState := by
  unfold behaviorPhase
  cases h : a.alertState
  · exact (patrol_keeps env a).1.trans h
  · exact (investigate_keeps_state env a).trans h
  · exact (search_keeps env a).1.trans h
  · exact (combat_keeps_state env a).trans h

/-- A level classified ALERTED is at least the 0.7 threshold. -/
lemma getStateFromLevel_alerted_le (l : ℚ)
    (h : getStateFromLevel l = AlertState.ALERTED) : alertedThreshold ≤ l := by
  rcases lt_or_le l alertedThreshold with hc | hc
  · exfalso
    unfold getStateFromLevel at h
    rw [if_neg (not_le.2 (lt_of_lt_of_le hc (by norm_num [alertedThreshold, combatThreshold]))),
        if_neg (not_le.2 hc)] at h
    split_ifs at h <;> exact AlertState.noConfusion h
  · exact hc

/-- The behavior modes keep a consistent nonnegative level: search is
the only mode that subtracts without clamping, and it only runs in the
ALERTED band (level at least 0.7), so subtracting 0.3 stays above 0. -/
lemma behaviorPhase_level_nonneg (env : TickEnv) (a : Agent) (h0 : 0 ≤ a.alertLevel)
    (hst : a.alertState = getStateFromLevel a.alertLevel) :
    0 ≤ (behaviorPhase env a).alertLevel := by
  unfold behaviorPhase
  cases ha : a.alertState
  · show 0 ≤ (patrol env a).alertLevel
    rw [(patrol_keeps env a).2.1]; exact h0
  · show 0 ≤ (investigate env a).alertLevel
    rcases investigate_level env a with h | h
    · rw [h]; exact h0
    · rw [h]
  · show 0 ≤ (search env a).alertLevel
    rcases search_level env a with h | h
    · rw [h]; exact h0
    · rw [h]
      have h7 : alertedThreshold ≤ a.alertLevel :=
        getStateFromLevel_alerted_le a.alertLevel (hst.symm.trans ha)
      have h7q : (7 : ℚ)/10 ≤ a.alertLevel := h7
      linarith
  · show 0 ≤ (combat env a).alertLevel
    rcases combat_level env a with h | h
    · rw [h]; norm_num
    · rw [h]; exact h0

/-! Concrete tick evaluations used by counterexamples and witnesses. -/

/-- One tick of `investigatingGuard` under `baseEnv`: decay brings the
level from 0.5 to 0.35, no stimulus arrives, the state is recomputed as
SUSPICIOUS, and the investigate behavior then gives up (timer 5 + 1
exceeds the 5 s duration), hard-resetting the level to 0 — after the
state was already recomputed. -/
lemma investigatingGuard_stimulus_eval :
    stimulusPhase baseEnv investigatingGuard =
      { investigatingGuard with alertLevel := 7/20, alertState := AlertState.SUSPICIOUS } := by
  rw [stimulusPhase]
  rw [show decayPhase baseEnv investigatingGuard =
      { investigatingGuard with alertLevel := 7/20 } from by
    rw [decayPhase, if_pos (by exact ⟨by norm_num [investigatingGuard, baseAgent], by decide⟩)]
    norm_num [investigatingGuard, baseAgent, baseEnv, alertDecayRate]]
  norm_num [detectionAmount, checkDetection, checkSoundDetection, getStateFromLevel,
    investigatingGuard, baseAgent, baseEnv, blockedSight,
    suspiciousThreshold, alertedThreshold, combatThreshold]

/-- After a living agent's tick, the discrete state is whatever the
stimulus phase recomputed — neither the behavior dispatch nor the
cooldown countdown writes it. -/
lemma update_alertState (env : TickEnv) (a : Agent) (h : a.isAlive = true) :
    (update env a).alertState = (stimulusPhase env a).alertState := by
  unfold update
  rw [if_neg (by simp [h])]
  dsimp only
  split_ifs with h2
  · exact behaviorPhase_keeps_state env (stimulusPhase env a)
  · exact behaviorPhase_keeps_state env (stimulusPhase env a)

/-- The give-up step seen at tick granularity: a living agent that is
SUSPICIOUS after stimulus intake, with a last known position and its
timer past the duration, ends the tick with level 0, no last known
position and a reset timer. -/
lemma update_giveup_fields (env : TickEnv) (a : Agent) (p : Vec3)
    (halive : a.isAlive = true)
    (hstate : (stimulusPhase env a).alertState = AlertState.SUSPICIOUS)
    (hlkp : (stimulusPhase env a).lastKnownPlayerPos = some p)
    (htime : investigateDuration < (stimulusPhase env a).investigateTime + env.deltaTime) :
    (update env a).alertLevel = 0 ∧ (update env a).lastKnownPlayerPos = none ∧
    (update env a).investigateTime = 0 := by
  unfold update
  rw [if_neg (by simp [halive])]
  have hbeh : behaviorPhase env (stimulusPhase env a) =
      investigate env (stimulusPhase env a) := by
    unfold behaviorPhase
    rw [hstate]
  rw [hbeh]
  have hgu := investigate_giveup env (stimulusPhase env a) p hlkp htime
  dsimp only
  split_ifs with hc
  · exact ⟨hgu.1, hgu.2.1, hgu.2.2⟩
  · exact hgu

/-- Counterexample to claim C2: immediately after the tick returns, the
agent's state is SUSPICIOUS while its level is 0, but the threshold
function maps level 0 to IDLE — the investigate give-up reset the level
after the state had been recomputed, so the tick-end state is not the
threshold function of the tick-end level. -/
theorem alertState_threshold_counterexample :
    (update baseEnv investigatingGuard).alertState = AlertState.SUSPICIOUS ∧
    (update baseEnv investigatingGuard).alertLevel = 0 ∧
    getStateFromLevel ((update baseEnv investigatingGuard).alertLevel) = AlertState.IDLE ∧
    (update baseEnv investigatingGuard).alertState ≠
      getStateFromLevel ((update baseEnv investigatingGuard).alertLevel) := by
  have hstate : (update baseEnv investigatingGuard).alertState = AlertState.SUSPICIOUS :=
    (update_alertState baseEnv investigatingGuard rfl).trans
      (by rw [investigatingGuard_stimulus_eval])
  have hlevel : (update baseEnv investigatingGuard).alertLevel = 0 :=
    (update_giveup_fields baseEnv investigatingGuard origin rfl
      (by rw [investigatingGuard_stimulus_eval])
      (by rw [investigatingGuard_stimulus_eval]; rfl)
      (by rw [investigatingGuard_stimulus_eval]
          norm_num [investigatingGuard, baseAgent, baseEnv, investigateDuration])).1
  refine ⟨hstate, hlevel, ?_, ?_⟩
  · rw [hlevel]
    norm_num [getStateFromLevel, suspiciousThreshold, alertedThreshold, combatThreshold]
  · rw [hstate, hlevel]
    norm_num [getStateFromLevel, suspiciousThreshold, alertedThreshold, combatThreshold]
    decide

/-- Claim C2 (amended): immediately after a living agent's tick
returns, its discrete state equals the threshold function of the level
as it stood at the mid-tick recompute (after decay and stimulus intake,
before the behavior ran) — the behavior modes never write the state, so
a behavior-phase level mutation (investigate's reset, search's 0.3
subtraction, combat's disengage value) is not reflected in the state
until the next tick's recompute. -/
theorem update_alertState_eq_stimulus_threshold (env : TickEnv) (a : Agent)
    (h : a.isAlive = true) :
    (update env a).alertState = getStateFromLevel (stimulusPhase env a).alertLevel := by
  unfold update
  rw [if_neg (by simp [h])]
  have hb := behaviorPhase_keeps_state env (stimulusPhase env a)
  have hst := stimulusPhase_alertState env a
  dsimp only
  split_ifs with h2
  · exact hb.trans hst
  · exact hb.trans hst

/-- Witness for C2 (amended) at a concrete living agent and tick. -/
theorem update_alertState_eq_stimulus_threshold_witness :
    (update baseEnv investigatingGuard).alertState =
      getStateFromLevel (stimulusPhase baseEnv investigatingGuard).alertLevel :=
  update_alertState_eq_stimulus_threshold baseEnv investigatingGuard rfl

/-- Claim C7: a tick never drives a nonnegative alert level negative —
decay clamps at 0, the visual term is only added when positive, the
gunshot floor raises the level, investigate resets to exactly 0,
search's 0.3 subtraction only runs in the ALERTED band (level at least
0.7), and combat's disengage writes 0.5. -/
theorem update_alertLevel_nonneg (env : TickEnv) (a : Agent) (h : 0 ≤ a.alertLevel) :
    0 ≤ (update env a).alertLevel := by
  unfold update
  split_ifs with h1
  · exact h
  · have hs0 : 0 ≤ (stimulusPhase env a).alertLevel := stimulusPhase_level_nonneg env a h
    have hb := behaviorPhase_level_nonneg env (stimulusPhase env a) hs0
      (stimulusPhase_alertState env a)
    dsimp only
    split_ifs with h2
    · exact hb
    · exact hb

/-- Witness for C7 at a concrete agent and tick. -/
theorem update_alertLevel_nonneg_witness :
    0 ≤ (update baseEnv investigatingGuard).alertLevel :=
  update_alertLevel_nonneg baseEnv investigatingGuard
    (by norm_num [investigatingGuard, baseAgent])

/-- Claim C8: if after stimulus intake a living agent is SUSPICIOUS
with a last known position set and its accumulated investigate timer
(plus this tick's deltaTime) exceeds the 5 s duration, the tick gives
up in a single step: the level is exactly 0 (hard reset), the last
known position is cleared and the timer is reset. -/
theorem update_investigate_give_up (env : TickEnv) (a : Agent) (p : Vec3)
    (halive : a.isAlive = true)
    (hstate : (stimulusPhase env a).alertState = AlertState.SUSPICIOUS)
    (hlkp : (stimulusPhase env a).lastKnownPlayerPos = some p)
    (htime : investigateDuration < (stimulusPhase env a).investigateTime + env.deltaTime) :
    (update env a).alertLevel = 0 ∧ (update env a).lastKnownPlayerPos = none ∧
    (update env a).investigateTime = 0 :=
  update_giveup_fields env a p halive hstate hlkp htime

/-- Witness for C8 at the concrete investigating guard: its timer
stands at 5 s, the 1 s tick pushes it past the duration, and the tick
ends with level 0, no last known position and a reset timer. -/
theorem update_investigate_give_up_witness :
    (update baseEnv investigatingGuard).alertLevel = 0 ∧
    (update baseEnv investigatingGuard).lastKnownPlayerPos = none ∧
    (update baseEnv investigatingGuard).investigateTime = 0 :=
  update_investigate_give_up baseEnv investigatingGuard origin rfl
    (by rw [investigatingGuard_stimulus_eval])
    (by rw [investigatingGuard_stimulus_eval]; rfl)
    (by rw [investigatingGuard_stimulus_eval]
        norm_num [investigatingGuard, baseAgent, baseEnv, investigateDuration])

/-- A positive detection amount requires a living player (a dead player
is gated to 0). -/
lemma detectionAmount_pos_player_alive (env : TickEnv) (a : Agent)
    (h : 0 < detectionAmount env a) : env.player.isAlive = true := by
  cases hp : env.player.isAlive
  · rw [detectionAmount, checkDetection] at h
    rw [hp] at h
    norm_num at h
  · rfl

/-- The behavior dispatch keeps a last-known position equal to the
(living) player's position, except that investigate may give up and
clear it. -/
lemma behaviorPhase_lkp (env : TickEnv) (b : Agent)
    (hb : b.lastKnownPlayerPos = some env.player.position)
    (hal : env.player.isAlive = true) :
    (behaviorPhase env b).lastKnownPlayerPos = some env.player.position ∨
      (b.alertState = AlertState.SUSPICIOUS ∧
       investigateDuration < b.investigateTime + env.deltaTime ∧
       (behaviorPhase env b).lastKnownPlayerPos = none) := by
  unfold behaviorPhase
  cases hst : b.alertState
  · exact Or.inl ((patrol_keeps env b).2.2.trans hb)
  · by_cases ht : investigateDuration < b.investigateTime + env.deltaTime
    · exact Or.inr ⟨rfl, ht, (investigate_giveup env b env.player.position hb ht).2.1⟩
    · exact Or.inl (investigate_keeps_lkp env b env.player.position hb ht)
  · exact Or.inl ((search_keeps env b).2.trans hb)
  · exact Or.inl (combat_lkp env b hal)

/-- A guard whose timer is already at 4.5 s and level at 0.49. -/
def distractedGuard : Agent :=
  { baseAgent with alertLevel := 49/100, alertState := AlertState.SUSPICIOUS,
                   lastKnownPlayerPos := some origin, investigateTime := 9/2 }

/-- Detection input for a barely visible player at the edge of range
and field of view. -/
def sneakyDet : DetInput :=
  { distance := 12, angle := 1, hasLineOfSight := true,
    visibilityMultiplier := 1/40, lightingModifier := 1 }

/-- Environment `baseEnv` with the barely visible player. -/
def sneakyEnv : TickEnv := { baseEnv with det := sneakyDet }

/-- Detection input for a plainly visible player dead ahead. -/
def watchDet : DetInput :=
  { distance := 5, angle := 0, hasLineOfSight := true,
    visibilityMultiplier := 1, lightingModifier := 1 }

/-- Environment `baseEnv` with the plainly visible player. -/
def watchEnv : TickEnv := { baseEnv with det := watchDet }

/-- Stimulus phase of `distractedGuard` under `sneakyEnv`: decay to
0.34, visual detection 0.01 raises the level to 0.35 and pins the last
known position to the player; the state recomputes to SUSPICIOUS. -/
lemma distractedGuard_stimulus_eval :
    stimulusPhase sneakyEnv distractedGuard =
      { distractedGuard with alertLevel := 7/20, alertState := AlertState.SUSPICIOUS,
                             lastKnownPlayerPos := some sneakyEnv.player.position } := by
  rw [stimulusPhase]
  rw [show decayPhase sneakyEnv distractedGuard =
      { distractedGuard with alertLevel := 17/50 } from by
    rw [decayPhase, if_pos (by exact ⟨by norm_num [distractedGuard, baseAgent], by decide⟩)]
    norm_num [distractedGuard, baseAgent, sneakyEnv, baseEnv, alertDecayRate]]
  norm_num [detectionAmount, checkDetection, checkSoundDetection, getStateFromLevel,
    detectionSpeed, distractedGuard, baseAgent, sneakyEnv, sneakyDet, baseEnv,
    suspiciousThreshold, alertedThreshold, combatThreshold]

/-- Counterexample to claim C10: in this tick the visual detection
amount is strictly positive (1/100), yet at tick end the agent's last
known player position is none, not the player's current position — the
same tick's investigate behavior gave up and cleared the field that the
stimulus intake had just set. -/
theorem detection_refresh_cleared_counterexample :
    0 < detectionAmount sneakyEnv distractedGuard ∧
    (update sneakyEnv distractedGuard).lastKnownPlayerPos = none ∧
    (update sneakyEnv distractedGuard).lastKnownPlayerPos ≠
      some sneakyEnv.player.position := by
  have hnone : (update sneakyEnv distractedGuard).lastKnownPlayerPos = none :=
    (update_giveup_fields sneakyEnv distractedGuard sneakyEnv.player.position rfl
      (by rw [distractedGuard_stimulus_eval])
      (by rw [distractedGuard_stimulus_eval])
      (by rw [distractedGuard_stimulus_eval]
          norm_num [distractedGuard, baseAgent, sneakyEnv, baseEnv, investigateDuration])).2.1
  refine ⟨?_, hnone, ?_⟩
  · norm_num [detectionAmount, checkDetection, detectionSpeed, distractedGuard,
      baseAgent, sneakyEnv, sneakyDet, baseEnv]
  · rw [hnone]
    simp

/-- Claim C10 (amended): whenever the visual detection amount is
strictly positive, the stimulus intake sets the agent's last known
player position to the player's exact current position — in every alert
state, not only Combat — and that value survives to the end of the tick
unless the same tick's investigate behavior gives up (SUSPICIOUS state
with timer past the 5 s duration), which clears it. -/
theorem detection_refreshes_lastKnown (env : TickEnv) (a : Agent)
    (halive : a.isAlive = true) (hdet : 0 < detectionAmount env a) :
    (stimulusPhase env a).lastKnownPlayerPos = some env.player.position ∧
    ((update env a).lastKnownPlayerPos = some env.player.position ∨
      ((stimulusPhase env a).alertState = AlertState.SUSPICIOUS ∧
       investigateDuration < (stimulusPhase env a).investigateTime + env.deltaTime ∧
       (update env a).lastKnownPlayerPos = none)) := by
  have hsl := stimulusPhase_lkp_detect env a hdet
  refine ⟨hsl, ?_⟩
  have hal := detectionAmount_pos_player_alive env a hdet
  unfold update
  rw [if_neg (by simp [halive])]
  dsimp only
  rcases behaviorPhase_lkp env (stimulusPhase env a) hsl hal with hk | ⟨hs1, hs2, hs3⟩
  · left
    split_ifs with hc
    · exact hk
    · exact hk
  · right
    refine ⟨hs1, hs2, ?_⟩
    split_ifs with hc
    · exact hs3
    · exact hs3

/-- Witness for C10 (amended): an idle guard sees the player clearly
(detection amount 19/24 this tick) and ends the tick — now ALERTED and
searching — with the last known position pinned to the player. -/
theorem detection_refreshes_lastKnown_witness :
    (stimulusPhase watchEnv baseAgent).lastKnownPlayerPos = some watchEnv.player.position ∧
    ((update watchEnv baseAgent).lastKnownPlayerPos = some watchEnv.player.position ∨
      ((stimulusPhase watchEnv baseAgent).alertState = AlertState.SUSPICIOUS ∧
       investigateDuration < (stimulusPhase watchEnv baseAgent).investigateTime +
         watchEnv.deltaTime ∧
       (update watchEnv baseAgent).lastKnownPlayerPos = none)) :=
  detection_refreshes_lastKnown watchEnv baseAgent rfl
    (by norm_num [detectionAmount, checkDetection, detectionSpeed, baseAgent,
      watchEnv, watchDet, baseEnv])

end Stealth
